import Mathlib

/-!
Verification development for the session-authentication core of the
`paquetes` repository (`src/auth/`): the scope authorizer embedded from
`auth/middleware.py`, and the session lifecycle embedded from
`auth/sessions.py` over the storage contract of `auth/storage.py`, with
the JSON reference backend of `auth/storage_json.py`.

Modelling conventions:
* Python `str` is Lean `String`; the Python string operations used by the
  source (`split`, `strip`, `in`, `replace`) are re-implemented below as
  structurally recursive functions over `String.data`, so that every
  concrete computation reduces inside the kernel.
* Timestamps (`datetime`) are natural numbers counting minutes; `now` is
  always passed explicitly.  `datetime.isoformat` becomes an injective
  rendering `isoformat : Nat → String`.  Durations (`timedelta(minutes=e)`)
  are naturals added to timestamps, so `now > last_activity + e` is exact.
  The storage backends compare ages with real arithmetic
  (`(now - last).total_seconds()/60 <= e`); over naturals the truncated
  subtraction `now - last ≤ e` agrees with it in every case (a negative
  age and a zero age are both `≤ e`).
* A Python dict returned to a caller is an association list
  `List (String × Option String)` (`none` is JSON `null`), which keeps the
  exact key set and insertion order observable.
* `storage.SessionStorage` (the abstract base class) is a Lean structure
  of operations over an abstract state `σ`; the session-manager functions
  of `sessions.py` are written once over that structure, exactly as the
  Python is written once over the ABC.
-/

/-- `str.isspace` characters relevant to `str.strip()` (ASCII whitespace
as in CPython: space, tab, newline, carriage return, vertical tab, form feed). -/
def pyIsSpace (c : Char) : Bool :=
  c == ' ' || c == '\t' || c == '\n' || c == '\r' ||
  c == Char.ofNat 11 || c == Char.ofNat 12

/-- Python `s.strip()`: drop leading and trailing whitespace. -/
def pyStrip (s : String) : String :=
  String.mk (((s.data.dropWhile pyIsSpace).reverse.dropWhile pyIsSpace).reverse)

/-- Core of Python `s.split(sep)` for a one-character separator, on the
character list.  `split` of the empty string is `[""]`, and empty fields
between adjacent separators are kept, as in Python. -/
def splitChars (sep : Char) : List Char → List (List Char)
  | [] => [[]]
  | c :: cs =>
    let r := splitChars sep cs
    if c == sep then [] :: r
    else
      match r with
      | [] => [[c]]
      | h :: t => (c :: h) :: t

/-- Python `s.split(sep)` for a one-character separator. -/
def pySplit (s : String) (sep : Char) : List String :=
  (splitChars sep s.data).map String.mk

/-- Python `sep in s` membership test for a single character. -/
def pyContains (s : String) (c : Char) : Bool :=
  s.data.contains c

/-- Python `s.split(sep, 1)` when `sep` occurs in `s`: the part before the
first separator and the part after it. -/
def pySplitFirst (s : String) (sep : Char) : String × String :=
  (String.mk (s.data.takeWhile (fun c => !(c == sep))),
   String.mk ((s.data.dropWhile (fun c => !(c == sep))).drop 1))

/-- Python string equality, computed on the underlying character lists. -/
def pyEq (a b : String) : Bool :=
  a.data == b.data

/-- Membership of a string in a list of strings (Python `x in list`). -/
def pyMem (x : String) (l : List String) : Bool :=
  l.any (fun y => pyEq y x)

/-!
### The regular-expression fragment used by the wildcard subsystem match

`middleware.py` builds `pattern = req_subsystem.replace('*', '.*')`,
anchors it as `f'^{pattern}$'` and calls `re.match`.  After the
replacement the only metacharacters a scope subsystem produces are `.`
(match any character) and `*` (Kleene star on the preceding atom), so the
anchored match is the full-match semantics of patterns built from
literals, `.`, and postfix `*`.  The matcher below implements exactly
that; it is fuelled so that it is structurally recursive (each step
shrinks `pattern.length + input.length`, so the initial fuel
`pattern.length + input.length + 1` is never exhausted).
-/

/-- One regex atom against one character: `.` matches anything, any other
character matches itself. -/
def atomMatch (p c : Char) : Bool :=
  p == '.' || p == c

/-- Full (anchored) match of a pattern of literals, `.`, and postfix `*`
against an input, with explicit fuel. -/
def reMatchFuel : Nat → List Char → List Char → Bool
  | 0, _, _ => false
  | fuel + 1, pat, s =>
    match pat, s with
    | [], s => s.isEmpty
    | p :: '*' :: ps, s =>
      reMatchFuel fuel ps s ||
        (match s with
         | [] => false
         | c :: s' => atomMatch p c && reMatchFuel fuel (p :: '*' :: ps) s')
    | _ :: _, [] => false
    | p :: ps, c :: s' => atomMatch p c && reMatchFuel fuel ps s'

/-- `re.match(f'^{pat}$', s)` for the pattern fragment above. -/
def reFullMatch (pat s : List Char) : Bool :=
  reMatchFuel (pat.length + s.length + 1) pat s

/-- Python `req_subsystem.replace('*', '.*')`. -/
def globToRe (s : List Char) : List Char :=
  (s.map (fun c => if c == '*' then ['.', '*'] else [c])).flatten

/-!
### Scope authorizer, copy 1: the `require_auth` decorator
(`middleware.py` lines 134–189)
-/

/-- Body of the `for required in required_scopes` loop of `require_auth`:
whether one required token is matched by the session's (already split and
stripped) scope tokens.  The `break` on first success makes the inner
`for user_scope in user_scopes` loop an existential. -/
def requireAuthTokenMatched (required : String) (userScopes : List String) : Bool :=
  if pyContains required ':' then
    let parts := pySplitFirst required ':'
    let reqSubsystem := parts.1
    let reqPermsList := (pySplit parts.2 ',').map pyStrip
    userScopes.any (fun userScope =>
      if !(pyContains userScope ':') then
        false
      else
        let uparts := pySplitFirst userScope ':'
        let userSubsystem := uparts.1
        let userPermsList := (pySplit uparts.2 ',').map pyStrip
        let subsystemMatch :=
          if pyContains reqSubsystem '*' then
            reFullMatch (globToRe reqSubsystem.data) userSubsystem.data
          else
            pyEq reqSubsystem userSubsystem
        subsystemMatch &&
          (pyMem "admin" userPermsList ||
           reqPermsList.all (fun perm => pyMem perm userPermsList)))
  else
    pyMem required userScopes

/-- The scope check of `require_auth` when a non-empty `scopes` argument
was given: split the required string and the session's scopes string on
commas, strip each token, and require every required token to match.
`sessionScopes` is `session.get('scopes', '')` (`none` for JSON null). -/
def requireAuthCheckScopes (scopes : String) (sessionScopes : Option String) : Bool :=
  let requiredScopes := (pySplit scopes ',').map pyStrip
  let userScopes :=
    match sessionScopes with
    | none => []
    | some s => if s = "" then [] else (pySplit s ',').map pyStrip
  requiredScopes.all (fun required => requireAuthTokenMatched required userScopes)

/-- The whole `if scopes:` guard of `require_auth`: with no required
scopes (or an empty string, falsy in Python) the request is authorized. -/
def requireAuthAuthorized (scopes : Option String) (sessionScopes : Option String) : Bool :=
  match scopes with
  | none => true
  | some s => if s = "" then true else requireAuthCheckScopes s sessionScopes

/-!
### Scope authorizer, copy 2: `SessionDependency.__call__`
(`middleware.py` lines 311–362)
-/

/-- Body of the `for required in required_scopes` loop of
`SessionDependency.__call__`. -/
def sessionDependencyTokenMatched (required : String) (userScopes : List String) : Bool :=
  if pyContains required ':' then
    let parts := pySplitFirst required ':'
    let reqSubsystem := parts.1
    let reqPermsList := (pySplit parts.2 ',').map pyStrip
    userScopes.any (fun userScope =>
      if !(pyContains userScope ':') then
        false
      else
        let uparts := pySplitFirst userScope ':'
        let userSubsystem := uparts.1
        let userPermsList := (pySplit uparts.2 ',').map pyStrip
        let subsystemMatch :=
          if pyContains reqSubsystem '*' then
            reFullMatch (globToRe reqSubsystem.data) userSubsystem.data
          else
            pyEq reqSubsystem userSubsystem
        subsystemMatch &&
          (pyMem "admin" userPermsList ||
           reqPermsList.all (fun perm => pyMem perm userPermsList)))
  else
    pyMem required userScopes

/-- The scope check of `SessionDependency.__call__` when `self.scopes`
is non-empty. -/
def sessionDependencyCheckScopes (scopes : String) (sessionScopes : Option String) : Bool :=
  let requiredScopes := (pySplit scopes ',').map pyStrip
  let userScopes :=
    match sessionScopes with
    | none => []
    | some s => if s = "" then [] else (pySplit s ',').map pyStrip
  requiredScopes.all (fun required => sessionDependencyTokenMatched required userScopes)

/-- The whole `if self.scopes:` guard of `SessionDependency.__call__`. -/
def sessionDependencyAuthorized (scopes : Option String) (sessionScopes : Option String) : Bool :=
  match scopes with
  | none => true
  | some s => if s = "" then true else sessionDependencyCheckScopes s sessionScopes

/-!
### The session data model (`auth/storage.py`, `auth/storage_json.py`)
-/

/-- One stored session record (the per-`session_id` entry of the JSON
file / the `USER_SESSIONS` row).  Timestamps are minutes as naturals. -/
structure SessionRec where
  session_id : String
  username : String
  created_at : Nat
  last_activity : Nat
  scopes : Option String
deriving DecidableEq, Repr

/-- `datetime.isoformat()` for the minute-counter timestamps of this
model: an injective string rendering. -/
def isoformat (t : Nat) : String :=
  Nat.repr t

/-- A Python dict returned to a caller: field name to string-or-null. -/
abbrev SessionView := List (String × Option String)

/-- The abstract storage contract `storage.SessionStorage`, over an
abstract backend state `σ`.  Each operation takes the state (and the
current time, which the Python backends read with `datetime.now()`)
and returns its result together with the successor state; read-only
operations return only the result. -/
structure SessionStorage (σ : Type) where
  ensure_table : σ → σ
  create_session : σ → SessionRec → σ
  get_session : σ → String → Option SessionRec
  update_last_activity : σ → String → Nat → Bool × σ
  delete_session : σ → String → Bool × σ
  count_active_sessions : σ → String → Nat → Nat → Nat
  get_oldest_session : σ → String → Nat → Nat → Option SessionRec
  get_all_sessions : σ → Option String → List SessionRec
  get_user_max_sessions : σ → String → Nat
  cleanup_expired_sessions : σ → Nat → Nat → Nat × σ

/-!
### The JSON reference backend (`auth/storage_json.py`)

The JSON file's dict of sessions is a `List SessionRec` in insertion
order with the (unique) `session_id` as the key.  The quota
`get_user_max_sessions` is the backend configuration: `storage_json.py`
hardcodes `1`, and `storage_mssql.py` with no user table reads the
configured constant `DEFAULT_MAX_SESSIONS`; `refStorage maxS` is the
reference store with that configured constant abstracted, and
`jsonStorage = refStorage 1` fixes it to the hardcoded `1`.

One JSON operation deviates from the storage contract:
`get_oldest_session` (`storage_json.py` lines 239-260) stores the
already-parsed `datetime` in `oldest['last_activity']` and then
re-parses it with `datetime.fromisoformat` at line 253, which raises
`TypeError` because `fromisoformat` only accepts strings.  The short
circuit `oldest is None or ...` protects the first active session of
the user, so the call returns normally only while the user has at most
one active session; the moment a second one is scanned it raises.  The
model below keeps this error path.
-/

/-- A raised Python exception.  The only exception with a reachable
raise site in the embedded code is the `TypeError` of
`storage_json.py` line 253 (see `JSONStorage.get_oldest_session`). -/
inductive PyError where
  | typeError
deriving DecidableEq, Repr

deriving instance DecidableEq for Except

namespace JSONStorage

/-- Activity test used by every backend query:
`(now - last_activity).total_seconds() / 60 <= expiration_minutes`. -/
def isActive (r : SessionRec) (expiration_minutes now : Nat) : Bool :=
  now - r.last_activity ≤ expiration_minutes

/-- `sessions[session_id] = {...}`: replace the entry if the key exists
(impossible under correct UUID generation), else append in insertion
order. -/
def create_session (st : List SessionRec) (r : SessionRec) : List SessionRec :=
  if st.any (fun x => pyEq x.session_id r.session_id) then
    st.map (fun x => if pyEq x.session_id r.session_id then r else x)
  else
    st ++ [r]

/-- `sessions.get(session_id)`. -/
def get_session (st : List SessionRec) (session_id : String) : Option SessionRec :=
  st.find? (fun x => pyEq x.session_id session_id)

/-- `update_last_activity`: set the entry's `last_activity` and report
`True`, or report `False` when the key is absent. -/
def update_last_activity (st : List SessionRec) (session_id : String)
    (last_activity : Nat) : Bool × List SessionRec :=
  if st.any (fun x => pyEq x.session_id session_id) then
    (true, st.map (fun x =>
      if pyEq x.session_id session_id then { x with last_activity := last_activity } else x))
  else
    (false, st)

/-- `delete_session`: remove the entry and report whether it existed. -/
def delete_session (st : List SessionRec) (session_id : String) :
    Bool × List SessionRec :=
  if st.any (fun x => pyEq x.session_id session_id) then
    (true, st.filter (fun x => !(pyEq x.session_id session_id)))
  else
    (false, st)

/-- The record filter shared by the per-user queries: belongs to the
user (`session['username'] != username: continue`) and is active. -/
def activePred (username : String) (expiration_minutes now : Nat)
    (r : SessionRec) : Bool :=
  pyEq r.username username && isActive r expiration_minutes now

/-- `count_active_sessions`: how many of the user's sessions are active. -/
def count_active_sessions (st : List SessionRec) (username : String)
    (expiration_minutes now : Nat) : Nat :=
  (st.filter (activePred username expiration_minutes now)).length

/-- One iteration of the `get_oldest_session` loop on a record of the
user.  The comparison at `storage_json.py` line 253 is
`last_activity < datetime.fromisoformat(oldest['last_activity'])`, but
`oldest['last_activity']` was stored as the already-parsed `datetime`,
so once `oldest` is set the short-circuited `oldest is None or ...`
reaches `fromisoformat` with a `datetime` argument and raises
`TypeError`; the first active session of the user is recorded without
error, any later one raises before the comparison is decided. -/
def oldestStep (username : String) (expiration_minutes now : Nat)
    (acc : Option SessionRec) (r : SessionRec) :
    Except PyError (Option SessionRec) :=
  if activePred username expiration_minutes now r then
    match acc with
    | none => .ok (some r)
    | some _ => .error PyError.typeError
  else .ok acc

/-- The `for session in sessions.values()` loop of
`get_oldest_session`, a raised `TypeError` aborting the whole call. -/
def get_oldest_scan (username : String) (expiration_minutes now : Nat) :
    Option SessionRec → List SessionRec → Except PyError (Option SessionRec)
  | acc, [] => .ok acc
  | acc, r :: t =>
    match oldestStep username expiration_minutes now acc r with
    | .error err => .error err
    | .ok acc' => get_oldest_scan username expiration_minutes now acc' t

/-- `get_oldest_session` as `storage_json.py` actually behaves: `None`
when the user has no active session, the unique active session when
there is exactly one, and a raised `TypeError` as soon as a second
active session of the user is scanned. -/
def get_oldest_session (st : List SessionRec) (username : String)
    (expiration_minutes now : Nat) : Except PyError (Option SessionRec) :=
  get_oldest_scan username expiration_minutes now none st

/-- `get_all_sessions`: all sessions, filtered by user when a truthy
username was given. -/
def get_all_sessions (st : List SessionRec) (username : Option String) :
    List SessionRec :=
  match username with
  | none => st
  | some u => if u = "" then st else st.filter (fun r => pyEq r.username u)

/-- `cleanup_expired_sessions`: drop every inactive session, reporting
how many were dropped. -/
def cleanup_expired_sessions (st : List SessionRec)
    (expiration_minutes now : Nat) : Nat × List SessionRec :=
  ((st.filter (fun r => !isActive r expiration_minutes now)).length,
   st.filter (fun r => isActive r expiration_minutes now))

end JSONStorage

/-- One step of the oldest-active scan as the storage contract
specifies it: keep the first seen active session of the user with the
strictly smallest `last_activity`. -/
def contractOldestStep (username : String) (expiration_minutes now : Nat)
    (acc : Option SessionRec) (r : SessionRec) : Option SessionRec :=
  if JSONStorage.activePred username expiration_minutes now r then
    match acc with
    | none => some r
    | some o => if r.last_activity < o.last_activity then some r else some o
  else acc

/-- The oldest-active query as the `storage.py` contract specifies it
(the user's oldest active session dict or `None`) and as the MSSQL
backend implements it (`SELECT TOP 1 ... ORDER BY LastActivity ASC`).
`storage_json.py`'s own implementation of this method deviates from the
contract — it raises `TypeError` whenever the user has two or more
active sessions; that behaviour is modelled faithfully by
`JSONStorage.get_oldest_session` and settled under claim C4. -/
def contract_get_oldest_session (st : List SessionRec) (username : String)
    (expiration_minutes now : Nat) : Option SessionRec :=
  st.foldl (contractOldestStep username expiration_minutes now) none

/-- An in-memory reference backend for the storage contract with the
configured per-user quota `maxS` abstracted: every operation is the
`storage_json.py` implementation except `get_oldest_session`, where the
contract semantics (`contract_get_oldest_session`) is used because the
JSON implementation of that one method raises instead of answering —
see `JSONStorage.get_oldest_session`, under which claim C4 settles the
eviction path of the JSON backend. -/
def refStorage (maxS : Nat) : SessionStorage (List SessionRec) where
  ensure_table st := st
  create_session := JSONStorage.create_session
  get_session := JSONStorage.get_session
  update_last_activity := JSONStorage.update_last_activity
  delete_session := JSONStorage.delete_session
  count_active_sessions := JSONStorage.count_active_sessions
  get_oldest_session := contract_get_oldest_session
  get_all_sessions := JSONStorage.get_all_sessions
  get_user_max_sessions := fun _ _ => maxS
  cleanup_expired_sessions := JSONStorage.cleanup_expired_sessions

/-- The `storage_json.py` backend on the operations the validation and
enumeration paths use — `get_session`, `update_last_activity`,
`delete_session`, `count_active_sessions`, `get_all_sessions`,
`cleanup_expired_sessions` are the literal JSON implementations and
`get_user_max_sessions` returns the hardcoded `1`.  Its
`get_oldest_session` field carries the contract semantics; the faithful
fallible JSON implementation is `JSONStorage.get_oldest_session`,
against which the creation/eviction claims are settled. -/
def jsonStorage : SessionStorage (List SessionRec) :=
  refStorage 1

/-- A backend state in which the record vanishes between the point
lookup and the touch: `get_session` still returns the (already read)
record, but `update_last_activity` reports `False`.  This is the
concurrent-delete race described for `validate_session`; the state is
the single surviving read result. -/
def raceStorage (r : SessionRec) : SessionStorage Unit where
  ensure_table st := st
  create_session st _ := st
  get_session _ _ := some r
  update_last_activity _ _ _ := (false, ())
  delete_session st _ := (false, st)
  count_active_sessions _ _ _ _ := 0
  get_oldest_session _ _ _ _ := none
  get_all_sessions _ _ := []
  get_user_max_sessions _ _ := 1
  cleanup_expired_sessions st _ _ := (0, st)

/-!
### The session manager (`auth/sessions.py`)

Each function is written over the abstract `SessionStorage`, as the
Python is.  `expiration_minutes` (`JWT_EXPIRATION_MINUTES`) and the
freshly generated `session_id` (`uuid.uuid4()`) are parameters, and
`now` stands for the `datetime.now()` of the call.
-/

/-- The view dict built and returned by `validate_session`
(`sessions.py` lines 173–180): six fields, timestamps ISO-rendered,
`last_activity` being the post-renewal value `la`. -/
def validateView (r : SessionRec) (la expiration_minutes : Nat) : SessionView :=
  [("session_id", some r.session_id),
   ("username", some r.username),
   ("created_at", some (isoformat r.created_at)),
   ("last_activity", some (isoformat la)),
   ("expires_at", some (isoformat (la + expiration_minutes))),
   ("scopes", r.scopes)]

/-- `validate_session(session_id, renew=True)` (`sessions.py` lines
126–180): point lookup, computed-at-read expiry check, optional
renewal, view construction.  Returns the view (or `none`) and the
storage state after the call.  As in the source, the boolean returned
by `storage.update_last_activity` is discarded. -/
def validate_session {σ : Type} (S : SessionStorage σ) (st : σ)
    (session_id : String) (now expiration_minutes : Nat)
    (renew : Bool := true) : Option SessionView × σ :=
  match S.get_session st session_id with
  | none => (none, st)
  | some session =>
    if now > session.last_activity + expiration_minutes then
      (none, st)
    else
      let last_activity := if renew then now else session.last_activity
      let st' := if renew then (S.update_last_activity st session_id now).2 else st
      (some (validateView session last_activity expiration_minutes), st')

/-- The view dict built and returned by `create_session` (`sessions.py`
lines 117–123): five fields — `last_activity` is not among them. -/
def createView (session_id username : String) (now expiration_minutes : Nat)
    (scopes : Option String) : SessionView :=
  [("session_id", some session_id),
   ("username", some username),
   ("created_at", some (isoformat now)),
   ("expires_at", some (isoformat (now + expiration_minutes))),
   ("scopes", scopes)]

/-- The quota-eviction loop of `create_session` (`sessions.py` lines
97–103): `while active >= max_sessions`, delete the oldest active
session and decrement `active`, breaking when none is found.  The loop
is fuelled to be structurally recursive; each iteration that deletes
decrements `active`, so the Python loop runs at most
`(active - max_sessions + 1)` iterations and the caller's fuel
`(active - maxSessions + 1).toNat` is exact: fuel `0` coincides with
the loop condition being false. -/
def evictLoop {σ : Type} (S : SessionStorage σ) (username : String)
    (expiration_minutes now : Nat) (maxSessions : Int) :
    Nat → Int → σ → σ
  | 0, _, st => st
  | fuel + 1, active, st =>
    if maxSessions ≤ active then
      match S.get_oldest_session st username expiration_minutes now with
      | some oldest =>
        evictLoop S username expiration_minutes now maxSessions fuel
          (active - 1) (S.delete_session st oldest.session_id).2
      | none => st
    else st

/-- `create_session(username, scopes)` (`sessions.py` lines 65–123):
ensure the schema, read the quota and the active count, evict oldest
active sessions while at or over the quota, insert the new record with
`created_at = last_activity = now`, and return the five-field view. -/
def create_session {σ : Type} (S : SessionStorage σ) (st : σ)
    (username : String) (scopes : Option String) (session_id : String)
    (now expiration_minutes : Nat) : SessionView × σ :=
  let st := S.ensure_table st
  let maxSessions := S.get_user_max_sessions st username
  let active := S.count_active_sessions st username expiration_minutes now
  let st := evictLoop S username expiration_minutes now (maxSessions : Int)
    (((active : Int) - (maxSessions : Int) + 1).toNat) (active : Int) st
  let st := S.create_session st
    { session_id := session_id, username := username,
      created_at := now, last_activity := now, scopes := scopes }
  (createView session_id username now expiration_minutes scopes, st)

/-- The view dict built per record by `get_active_sessions`
(`sessions.py` lines 267–274): six fields; `created_at` and
`last_activity` are passed through as stored (the stored form is the
ISO rendering of the timestamp). -/
def activeView (r : SessionRec) (expiration_minutes : Nat) : SessionView :=
  [("session_id", some r.session_id),
   ("username", some r.username),
   ("created_at", some (isoformat r.created_at)),
   ("last_activity", some (isoformat r.last_activity)),
   ("expires_at", some (isoformat (r.last_activity + expiration_minutes))),
   ("scopes", r.scopes)]

/-- `get_active_sessions(username)` (`sessions.py` lines 239–276):
enumerate, keep the records with `now <= last_activity + ttl`, and
render each as a six-field view. -/
def get_active_sessions {σ : Type} (S : SessionStorage σ) (st : σ)
    (username : Option String) (now expiration_minutes : Nat) :
    List SessionView :=
  (S.get_all_sessions st username).filterMap (fun r =>
    if now ≤ r.last_activity + expiration_minutes then
      some (activeView r expiration_minutes)
    else none)

/-!
### The guard call sites (`auth/middleware.py`)

All three request-guard validations call
`validate_session(session_id, renew=True)` explicitly.
-/

/-- The validation call of `require_auth` (`middleware.py` line 123). -/
def requireAuthValidate {σ : Type} (S : SessionStorage σ) (st : σ)
    (session_id : String) (now expiration_minutes : Nat) :
    Option SessionView × σ :=
  validate_session S st session_id now expiration_minutes true

/-- The validation call of `get_session_from_request`
(`middleware.py` line 248). -/
def getSessionFromRequestValidate {σ : Type} (S : SessionStorage σ) (st : σ)
    (session_id : String) (now expiration_minutes : Nat) :
    Option SessionView × σ :=
  validate_session S st session_id now expiration_minutes true

/-- The validation call of `SessionDependency.__call__`
(`middleware.py` line 304). -/
def sessionDependencyValidate {σ : Type} (S : SessionStorage σ) (st : σ)
    (session_id : String) (now expiration_minutes : Nat) :
    Option SessionView × σ :=
  validate_session S st session_id now expiration_minutes true

/-!
### Basic facts about the embedded string primitives
-/

theorem pyEq_iff {a b : String} : pyEq a b = true ↔ a = b := by
  constructor
  · intro h
    exact String.ext (by simpa [pyEq] using h)
  · intro h
    subst h
    simp [pyEq]

theorem pyEq_refl (a : String) : pyEq a a = true := by
  simp [pyEq]

theorem pyEq_eq_false {a b : String} (h : a ≠ b) : pyEq a b = false := by
  cases hb : pyEq a b with
  | false => rfl
  | true => exact absurd (pyEq_iff.mp hb) h

/-!
### Lemmas about the JSON reference backend
-/

namespace JSONStorage

/-- An active session of the user makes the active count positive. -/
theorem count_pos (u : String) (e now : Nat) (st : List SessionRec)
    (o : SessionRec) (ho : o ∈ st) (hp : activePred u e now o = true) :
    1 ≤ count_active_sessions st u e now := by
  have : o ∈ st.filter (activePred u e now) := List.mem_filter.mpr ⟨ho, hp⟩
  have hne : st.filter (activePred u e now) ≠ [] := List.ne_nil_of_mem this
  have := List.length_pos.mpr hne
  simpa [count_active_sessions] using this

/-- Deleting a present, matching record (by its unique `session_id`)
lowers the active count by exactly one. -/
theorem count_delete (u : String) (e now : Nat) :
    ∀ (st : List SessionRec) (o : SessionRec),
      (st.map SessionRec.session_id).Nodup → o ∈ st →
      activePred u e now o = true →
      count_active_sessions
          (st.filter (fun x => !(pyEq x.session_id o.session_id))) u e now
        = count_active_sessions st u e now - 1 := by
  intro st
  induction st with
  | nil => intro o _ ho _; cases ho
  | cons h t ih =>
    intro o hnd ho hp
    have hnd' : (t.map SessionRec.session_id).Nodup :=
      (List.nodup_cons.mp (by simpa using hnd)).2
    have hhd : h.session_id ∉ t.map SessionRec.session_id :=
      (List.nodup_cons.mp (by simpa using hnd)).1
    by_cases hsid : h.session_id = o.session_id
    · have hoh : o = h := by
        rcases List.mem_cons.mp ho with rfl | hot
        · rfl
        · exact absurd (hsid ▸ List.mem_map_of_mem SessionRec.session_id hot) hhd
      subst hoh
      have hkeep : t.filter (fun x => !(pyEq x.session_id o.session_id)) = t := by
        apply List.filter_eq_self.mpr
        intro x hx
        have hxne : x.session_id ≠ o.session_id := by
          intro hcontra
          exact hhd (hcontra ▸ List.mem_map_of_mem SessionRec.session_id hx)
        simp [pyEq_eq_false hxne]
      simp only [List.filter_cons, pyEq_refl, Bool.not_true, if_neg (by simp : ¬(false = true)),
        hkeep]
      simp [count_active_sessions, List.filter_cons, hp]
    · have hot : o ∈ t := by
        rcases List.mem_cons.mp ho with rfl | hot
        · exact absurd rfl hsid
        · exact hot
      have hpos : 1 ≤ count_active_sessions t u e now := count_pos u e now t o hot hp
      have ihr := ih o hnd' hot hp
      have hcons : (h :: t).filter (fun x => !(pyEq x.session_id o.session_id))
          = h :: t.filter (fun x => !(pyEq x.session_id o.session_id)) := by
        simp [List.filter_cons, pyEq_eq_false hsid]
      rw [hcons]
      by_cases hph : activePred u e now h = true
      · have e1 : count_active_sessions
            (h :: t.filter (fun x => !(pyEq x.session_id o.session_id))) u e now
              = count_active_sessions
                  (t.filter (fun x => !(pyEq x.session_id o.session_id))) u e now + 1 := by
          simp [count_active_sessions, List.filter_cons, hph]
        have e2 : count_active_sessions (h :: t) u e now
            = count_active_sessions t u e now + 1 := by
          simp [count_active_sessions, List.filter_cons, hph]
        rw [e1, e2, ihr]
        omega
      · have e1 : count_active_sessions
            (h :: t.filter (fun x => !(pyEq x.session_id o.session_id))) u e now
              = count_active_sessions
                  (t.filter (fun x => !(pyEq x.session_id o.session_id))) u e now := by
          simp [count_active_sessions, List.filter_cons, hph]
        have e2 : count_active_sessions (h :: t) u e now
            = count_active_sessions t u e now := by
          simp [count_active_sessions, List.filter_cons, hph]
        rw [e1, e2, ihr]

/-- Filtering preserves uniqueness of the stored keys. -/
theorem nodup_filter (st : List SessionRec) (p : SessionRec → Bool)
    (hnd : (st.map SessionRec.session_id).Nodup) :
    ((st.filter p).map SessionRec.session_id).Nodup :=
  ((st.filter_sublist).map SessionRec.session_id).nodup hnd

end JSONStorage

/-- Appending a fresh, just-created (hence active) record raises the
active count by one. -/
theorem count_append_new (u : String) (e now : Nat) (l : List SessionRec)
    (r : SessionRec) (hp : JSONStorage.activePred u e now r = true) :
    JSONStorage.count_active_sessions (l ++ [r]) u e now
      = JSONStorage.count_active_sessions l u e now + 1 := by
  simp [JSONStorage.count_active_sessions, List.filter_append, hp]

/-- The new record `create_session` inserts is active for its own call:
`created_at = last_activity = now` and the age `now - now = 0` is within
any TTL. -/
theorem activePred_new (u : String) (e now : Nat) (sid : String)
    (sc : Option String) :
    JSONStorage.activePred u e now
      { session_id := sid, username := u, created_at := now,
        last_activity := now, scopes := sc } = true := by
  simp [JSONStorage.activePred, JSONStorage.isActive, pyEq_refl]

/-!
### The `maxSessions + 1` creation sequence

`seqSid i` is the (pairwise distinct) id of the `i`-th created session
and `seqRec u sc i` the record `create_session` stores for it when the
`i`-th create happens at time `i`.
-/

/-- Fresh id for the `i`-th session of the sequence. -/
def seqSid (i : Nat) : String :=
  String.mk (List.replicate (i + 1) 's')

/-- The record stored by the `i`-th create of the sequence
(`created_at = last_activity = i`). -/
def seqRec (u : String) (sc : Option String) (i : Nat) : SessionRec :=
  { session_id := seqSid i, username := u, created_at := i,
    last_activity := i, scopes := sc }

/-- The quota-eviction loop of `create_session` run against the
`JSONSessionStorage` backend: `while active >= max_sessions`, ask the
backend for the oldest active session — propagating the `TypeError`
its implementation may raise, which the Python loop does not catch —
delete it and decrement `active`, breaking when none is found.
Fuelled exactly like `evictLoop`: the caller's fuel
`(active - maxSessions + 1).toNat` bounds the iterations, and fuel `0`
coincides with the loop condition being false. -/
def evictLoopE (username : String) (expiration_minutes now : Nat)
    (maxSessions : Int) :
    Nat → Int → List SessionRec → Except PyError (List SessionRec)
  | 0, _, st => .ok st
  | fuel + 1, active, st =>
    if maxSessions ≤ active then
      match JSONStorage.get_oldest_session st username expiration_minutes now with
      | .error err => .error err
      | .ok (some oldest) =>
        evictLoopE username expiration_minutes now maxSessions fuel
          (active - 1) (JSONStorage.delete_session st oldest.session_id).2
      | .ok none => .ok st
    else .ok st

/-- `create_session(username, scopes)` of `sessions.py` run against the
`JSONSessionStorage` backend with the configured quota `maxSessions`:
count the active sessions, evict while at or over the quota — a
`TypeError` raised by the backend's `get_oldest_session` propagates
uncaught, as in the Python — then insert the new record with
`created_at = last_activity = now` and return the five-field view. -/
def create_sessionE (maxSessions : Nat) (st : List SessionRec)
    (username : String) (scopes : Option String) (session_id : String)
    (now expiration_minutes : Nat) :
    Except PyError (SessionView × List SessionRec) :=
  match evictLoopE username expiration_minutes now (maxSessions : Int)
      (((JSONStorage.count_active_sessions st username expiration_minutes now : Int)
          - (maxSessions : Int) + 1).toNat)
      (JSONStorage.count_active_sessions st username expiration_minutes now : Int)
      st with
  | .error err => .error err
  | .ok st' =>
    .ok (createView session_id username now expiration_minutes scopes,
         JSONStorage.create_session st'
           { session_id := session_id, username := username,
             created_at := now, last_activity := now, scopes := scopes })

/-- `k` strictly sequential creates for one principal against the JSON
backend with quota `M`: the `i`-th call happens at time `i` with the
fresh id `seqSid i`; the first raised `TypeError` aborts the
sequence. -/
def createSeqE (M : Nat) (u : String) (sc : Option String) (e : Nat) :
    Nat → Except PyError (List SessionRec)
  | 0 => .ok []
  | k + 1 =>
    match createSeqE M u sc e k with
    | .error err => .error err
    | .ok st =>
      match create_sessionE M st u sc (seqSid k) k e with
      | .error err => .error err
      | .ok vs => .ok vs.2

theorem seqSid_injective : Function.Injective seqSid := by
  intro i j h
  have := congrArg (fun s => s.data.length) h
  simpa [seqSid] using this

/-- Every record of a mapped `range'` block passes the active filter
when its timestamp is within the TTL window. -/
theorem filter_map_range' (u : String) (sc : Option String) (e now : Nat)
    (a n : Nat) (h : ∀ i, a ≤ i → i < a + n → now - i ≤ e) :
    ((List.range' a n).map (seqRec u sc)).filter
        (JSONStorage.activePred u e now)
      = (List.range' a n).map (seqRec u sc) := by
  apply List.filter_eq_self.mpr
  intro r hr
  obtain ⟨i, hi, rfl⟩ := List.mem_map.mp hr
  obtain ⟨j, hj, rfl⟩ := List.mem_range'.mp hi
  simp only [JSONStorage.activePred, JSONStorage.isActive, seqRec, pyEq_refl,
    Bool.true_and, decide_eq_true_eq]
  exact h _ (by omega) (by omega)

/-- Every record of a mapped `range'` block is counted as active when
its timestamp is within the TTL window. -/
theorem count_map_range' (u : String) (sc : Option String) (e now : Nat)
    (a n : Nat) (h : ∀ i, a ≤ i → i < a + n → now - i ≤ e) :
    JSONStorage.count_active_sessions
        ((List.range' a n).map (seqRec u sc)) u e now = n := by
  simp [JSONStorage.count_active_sessions, filter_map_range' u sc e now a n h]

/-- No id of a `seqRec` block below `k` collides with `seqSid k`. -/
theorem seq_any_eq_false (u : String) (sc : Option String) (a n k : Nat)
    (h : ∀ i, a ≤ i → i < a + n → i ≠ k) :
    ((List.range' a n).map (seqRec u sc)).any
      (fun x => pyEq x.session_id (seqSid k)) = false := by
  apply List.any_eq_false.mpr
  intro x hx
  obtain ⟨i, hi, rfl⟩ := List.mem_map.mp hx
  obtain ⟨j, hj, rfl⟩ := List.mem_range'.mp hi
  have hne : seqSid (a + j) ≠ seqSid k :=
    fun hc => h _ (by omega) (by omega) (seqSid_injective hc)
  simp [seqRec, pyEq_eq_false hne]

/-!
### Behaviour of the fallible `get_oldest_session` and of the JSON
creation path
-/

/-- Once the scan holds an `oldest`, the next active session of the
user raises; a scan that holds one and meets no further active session
returns it. -/
theorem get_oldest_scan_some (u : String) (e now : Nat) :
    ∀ (l : List SessionRec) (a : SessionRec),
      JSONStorage.get_oldest_scan u e now (some a) l
        = if l.any (JSONStorage.activePred u e now)
          then .error PyError.typeError
          else .ok (some a) := by
  intro l
  induction l with
  | nil => intro a; simp [JSONStorage.get_oldest_scan]
  | cons r t ih =>
    intro a
    by_cases hp : JSONStorage.activePred u e now r = true
    · simp [JSONStorage.get_oldest_scan, JSONStorage.oldestStep, hp]
    · simp [JSONStorage.get_oldest_scan, JSONStorage.oldestStep, hp, ih]

/-- What `get_oldest_session` returns is decided entirely by the list
of the user's active sessions: `None` for none, the unique one for
exactly one, a raised `TypeError` for two or more. -/
theorem get_oldest_session_eq (u : String) (e now : Nat) :
    ∀ (st : List SessionRec),
      JSONStorage.get_oldest_session st u e now
        = match st.filter (JSONStorage.activePred u e now) with
          | [] => .ok none
          | [o] => .ok (some o)
          | _ :: _ :: _ => .error PyError.typeError := by
  intro st
  induction st with
  | nil => rfl
  | cons r t ih =>
    by_cases hp : JSONStorage.activePred u e now r = true
    · have h1 : JSONStorage.get_oldest_session (r :: t) u e now
          = JSONStorage.get_oldest_scan u e now (some r) t := by
        simp [JSONStorage.get_oldest_session, JSONStorage.get_oldest_scan,
          JSONStorage.oldestStep, hp]
      rw [h1, get_oldest_scan_some]
      rw [List.filter_cons, if_pos hp]
      by_cases ha : t.any (JSONStorage.activePred u e now) = true
      · rw [if_pos ha]
        obtain ⟨x, hx, hpx⟩ := List.any_eq_true.mp ha
        cases hft : t.filter (JSONStorage.activePred u e now) with
        | nil =>
          exact absurd (List.mem_filter.mpr ⟨hx, hpx⟩)
            (by rw [hft]; exact List.not_mem_nil x)
        | cons y l' => rfl
      · rw [if_neg ha]
        have hanyf : t.any (JSONStorage.activePred u e now) = false := by
          cases hval : t.any (JSONStorage.activePred u e now) with
          | false => rfl
          | true => exact absurd hval ha
        have hft : t.filter (JSONStorage.activePred u e now) = [] := by
          rw [List.filter_eq_nil_iff]
          intro x hx
          exact List.any_eq_false.mp hanyf x hx
        rw [hft]
    · have h1 : JSONStorage.get_oldest_session (r :: t) u e now
          = JSONStorage.get_oldest_session t u e now := by
        simp [JSONStorage.get_oldest_session, JSONStorage.get_oldest_scan,
          JSONStorage.oldestStep, hp]
      rw [h1, List.filter_cons, if_neg hp]
      exact ih

/-- A successful `some` answer from `get_oldest_session` is an active
session of the user, present in the store, with minimal
`last_activity` among them — it is in fact the only one. -/
theorem get_oldest_session_ok_some_spec (u : String) (e now : Nat)
    (st : List SessionRec) (o : SessionRec)
    (h : JSONStorage.get_oldest_session st u e now = .ok (some o)) :
    o ∈ st ∧ JSONStorage.activePred u e now o = true ∧
      ∀ r ∈ st, JSONStorage.activePred u e now r = true →
        o.last_activity ≤ r.last_activity := by
  rw [get_oldest_session_eq] at h
  cases hft : st.filter (JSONStorage.activePred u e now) with
  | nil => rw [hft] at h; simp at h
  | cons x l' =>
    cases l' with
    | nil =>
      rw [hft] at h
      simp only [Except.ok.injEq, Option.some.injEq] at h
      have hxmem : x ∈ st.filter (JSONStorage.activePred u e now) := by
        rw [hft]
        exact List.mem_cons_self x []
      have hx := List.mem_filter.mp hxmem
      rw [← h]
      refine ⟨hx.1, hx.2, ?_⟩
      intro r hr hpr
      have hrmem : r ∈ st.filter (JSONStorage.activePred u e now) :=
        List.mem_filter.mpr ⟨hr, hpr⟩
      rw [hft] at hrmem
      have hre : r = x := by simpa using hrmem
      rw [hre]
    | cons y l'' => rw [hft] at h; simp at h

/-- With two or more active sessions of the user in the store,
`get_oldest_session` raises. -/
theorem get_oldest_session_error_of_two (u : String) (e now : Nat)
    (st : List SessionRec)
    (h2 : 2 ≤ JSONStorage.count_active_sessions st u e now) :
    JSONStorage.get_oldest_session st u e now = .error PyError.typeError := by
  rw [get_oldest_session_eq]
  simp only [JSONStorage.count_active_sessions] at h2
  cases hft : st.filter (JSONStorage.activePred u e now) with
  | nil =>
    rw [hft] at h2
    simp only [List.length_nil] at h2
    omega
  | cons x l' =>
    cases l' with
    | nil =>
      rw [hft] at h2
      simp only [List.length_singleton] at h2
      omega
    | cons y l'' => rfl

/-- With exactly one active session of the user, `get_oldest_session`
returns it. -/
theorem get_oldest_session_of_count_one (u : String) (e now : Nat)
    (st : List SessionRec)
    (h1 : JSONStorage.count_active_sessions st u e now = 1) :
    ∃ o, JSONStorage.get_oldest_session st u e now = .ok (some o) ∧
      st.filter (JSONStorage.activePred u e now) = [o] := by
  simp only [JSONStorage.count_active_sessions] at h1
  cases hft : st.filter (JSONStorage.activePred u e now) with
  | nil =>
    rw [hft] at h1
    simp only [List.length_nil] at h1
    omega
  | cons x l' =>
    cases l' with
    | nil =>
      refine ⟨x, ?_, rfl⟩
      rw [get_oldest_session_eq, hft]
    | cons y l'' =>
      rw [hft] at h1
      simp only [List.length_cons] at h1
      omega

/-- Unfolding equation of `evictLoopE` with no remaining iterations. -/
theorem evictLoopE_zero (u : String) (e now : Nat) (M active : Int)
    (st : List SessionRec) :
    evictLoopE u e now M 0 active st = .ok st := rfl

/-- Unfolding equation of `evictLoopE` for one remaining iteration. -/
theorem evictLoopE_succ (u : String) (e now : Nat) (M : Int) (fuel : Nat)
    (active : Int) (st : List SessionRec) :
    evictLoopE u e now M (fuel + 1) active st
      = if M ≤ active then
          match JSONStorage.get_oldest_session st u e now with
          | .error err => .error err
          | .ok (some oldest) =>
            evictLoopE u e now M fuel (active - 1)
              (JSONStorage.delete_session st oldest.session_id).2
          | .ok none => .ok st
        else .ok st := rfl

/-- Computation of `create_sessionE`, with the lets spelled out. -/
theorem create_sessionE_def (M : Nat) (st : List SessionRec) (u : String)
    (sc : Option String) (sid : String) (now e : Nat) :
    create_sessionE M st u sc sid now e
      = match evictLoopE u e now (M : Int)
            (((JSONStorage.count_active_sessions st u e now : Int)
                - (M : Int) + 1).toNat)
            (JSONStorage.count_active_sessions st u e now : Int) st with
        | .error err => .error err
        | .ok st' =>
          .ok (createView sid u now e sc,
               JSONStorage.create_session st'
                 { session_id := sid, username := u, created_at := now,
                   last_activity := now, scopes := sc }) := rfl

/-- Unfolding equation of `createSeqE` for one further create. -/
theorem createSeqE_succ (M : Nat) (u : String) (sc : Option String)
    (e k : Nat) :
    createSeqE M u sc e (k + 1)
      = match createSeqE M u sc e k with
        | .error err => .error err
        | .ok st =>
          match create_sessionE M st u sc (seqSid k) k e with
          | .error err => .error err
          | .ok vs => .ok vs.2 := rfl

/-- The first `k ≤ maxSessions` sequential creates never reach the
eviction query: each succeeds and the store is exactly the `k` records
created so far. -/
theorem createSeqE_eq (M : Nat) (u : String) (sc : Option String) (e : Nat)
    (he : M ≤ e) : ∀ k, k ≤ M →
    createSeqE M u sc e k = .ok ((List.range' 0 k).map (seqRec u sc)) := by
  intro k
  induction k with
  | zero => intro _; rfl
  | succ k ih =>
    intro hk1
    have hkM : k < M := hk1
    have hcount : JSONStorage.count_active_sessions
        ((List.range' 0 k).map (seqRec u sc)) u e k = k :=
      count_map_range' u sc e k 0 k (fun i _ h2 => by omega)
    have hfuel : (((k : Nat) : Int) - (M : Int) + 1).toNat = 0 := by omega
    have hany : ((List.range' 0 k).map (seqRec u sc)).any
        (fun x => pyEq x.session_id (seqSid k)) = false :=
      seq_any_eq_false u sc 0 k k (fun i _ h2 h3 => by omega)
    have hins : JSONStorage.create_session ((List.range' 0 k).map (seqRec u sc))
        { session_id := seqSid k, username := u, created_at := k,
          last_activity := k, scopes := sc }
          = (List.range' 0 k).map (seqRec u sc) ++ [seqRec u sc k] := by
      simp [JSONStorage.create_session, hany, seqRec]
    have hcreate : create_sessionE M ((List.range' 0 k).map (seqRec u sc))
        u sc (seqSid k) k e
          = .ok (createView (seqSid k) u k e sc,
                 (List.range' 0 (k + 1)).map (seqRec u sc)) := by
      simp only [create_sessionE_def, hcount, hfuel, evictLoopE_zero]
      rw [hins]
      rw [List.range'_concat 0 k]
      simp
    rw [createSeqE_succ, ih (Nat.le_of_lt hkM)]
    simp only [hcreate]

/-- Two sequential creates at quota 1: the second create finds one
active session, the backend's oldest-session query returns it without
error (a single active session never reaches the crashing comparison),
it is evicted, and the store ends up holding exactly the second
session. -/
theorem createSeqE_two (u : String) (sc : Option String) (e : Nat)
    (he : 1 ≤ e) :
    createSeqE 1 u sc e 2 = .ok [seqRec u sc 1] := by
  have h1 : createSeqE 1 u sc e 1 = .ok ((List.range' 0 1).map (seqRec u sc)) :=
    createSeqE_eq 1 u sc e he 1 (Nat.le_refl 1)
  have hsing : (List.range' 0 1).map (seqRec u sc) = [seqRec u sc 0] := rfl
  have hcount : JSONStorage.count_active_sessions [seqRec u sc 0] u e 1 = 1 := by
    have := count_map_range' u sc e 1 0 1 (fun i h1 h2 => by omega)
    rwa [hsing] at this
  have hoeq : JSONStorage.get_oldest_session [seqRec u sc 0] u e 1
      = .ok (some (seqRec u sc 0)) := by
    have hft : ([seqRec u sc 0]).filter (JSONStorage.activePred u e 1)
        = [seqRec u sc 0] := by
      have := filter_map_range' u sc e 1 0 1 (fun i h1 h2 => by omega)
      rwa [hsing] at this
    rw [get_oldest_session_eq, hft]
  have hdel : (JSONStorage.delete_session [seqRec u sc 0]
      (seqRec u sc 0).session_id).2 = [] := by
    simp [JSONStorage.delete_session, pyEq_refl]
  have hev : evictLoopE u e 1 ((1 : Nat) : Int) 1 ((1 : Nat) : Int)
      [seqRec u sc 0] = .ok [] := by
    have h2 : evictLoopE u e 1 ((1 : Nat) : Int) 1 ((1 : Nat) : Int)
        [seqRec u sc 0]
          = if ((1 : Nat) : Int) ≤ ((1 : Nat) : Int) then
              match JSONStorage.get_oldest_session [seqRec u sc 0] u e 1 with
              | .error err => .error err
              | .ok (some oldest) =>
                evictLoopE u e 1 ((1 : Nat) : Int) 0 (((1 : Nat) : Int) - 1)
                  (JSONStorage.delete_session [seqRec u sc 0] oldest.session_id).2
              | .ok none => .ok [seqRec u sc 0]
            else .ok [seqRec u sc 0] :=
      evictLoopE_succ u e 1 ((1 : Nat) : Int) 0 ((1 : Nat) : Int) [seqRec u sc 0]
    rw [h2, if_pos (Int.le_refl _), hoeq]
    simp only [hdel, evictLoopE_zero]
  have hfuel : (((1 : Nat) : Int) - ((1 : Nat) : Int) + 1).toNat = 1 := by decide
  have hins : JSONStorage.create_session []
      { session_id := seqSid 1, username := u, created_at := 1,
        last_activity := 1, scopes := sc }
        = [seqRec u sc 1] := by
    simp [JSONStorage.create_session, seqRec]
  have hcreate : create_sessionE 1 [seqRec u sc 0] u sc (seqSid 1) 1 e
      = .ok (createView (seqSid 1) u 1 e sc, [seqRec u sc 1]) := by
    simp only [create_sessionE_def, hcount, hfuel, hev]
    rw [hins]
  show createSeqE 1 u sc e (1 + 1) = .ok [seqRec u sc 1]
  rw [createSeqE_succ, h1, hsing]
  simp only [hcreate]

/-- At a configured quota of two or more, the `(maxSessions + 1)`-th
sequential create reaches the eviction query with at least two active
sessions of the principal in the store, and the call raises
`TypeError` instead of evicting. -/
theorem createSeqE_crash (M : Nat) (u : String) (sc : Option String)
    (e : Nat) (hM2 : 2 ≤ M) (he : M ≤ e) :
    createSeqE M u sc e (M + 1) = .error PyError.typeError := by
  have hfull : createSeqE M u sc e M
      = .ok ((List.range' 0 M).map (seqRec u sc)) :=
    createSeqE_eq M u sc e he M (Nat.le_refl M)
  have hcount : JSONStorage.count_active_sessions
      ((List.range' 0 M).map (seqRec u sc)) u e M = M :=
    count_map_range' u sc e M 0 M (fun i h1 h2 => by omega)
  have herr : JSONStorage.get_oldest_session
      ((List.range' 0 M).map (seqRec u sc)) u e M
        = .error PyError.typeError := by
    apply get_oldest_session_error_of_two
    rw [hcount]
    exact hM2
  have hfuel : (((M : Nat) : Int) - ((M : Nat) : Int) + 1).toNat = 1 := by omega
  have hev : evictLoopE u e M ((M : Nat) : Int) 1 ((M : Nat) : Int)
      ((List.range' 0 M).map (seqRec u sc)) = .error PyError.typeError := by
    have h2 : evictLoopE u e M ((M : Nat) : Int) 1 ((M : Nat) : Int)
        ((List.range' 0 M).map (seqRec u sc))
          = if ((M : Nat) : Int) ≤ ((M : Nat) : Int) then
              match JSONStorage.get_oldest_session
                  ((List.range' 0 M).map (seqRec u sc)) u e M with
              | .error err => .error err
              | .ok (some oldest) =>
                evictLoopE u e M ((M : Nat) : Int) 0 (((M : Nat) : Int) - 1)
                  (JSONStorage.delete_session
                    ((List.range' 0 M).map (seqRec u sc)) oldest.session_id).2
              | .ok none => .ok ((List.range' 0 M).map (seqRec u sc))
            else .ok ((List.range' 0 M).map (seqRec u sc)) :=
      evictLoopE_succ u e M ((M : Nat) : Int) 0 ((M : Nat) : Int) _
    rw [h2, if_pos (Int.le_refl _), herr]
  have hcreate : create_sessionE M ((List.range' 0 M).map (seqRec u sc))
      u sc (seqSid M) M e = .error PyError.typeError := by
    simp only [create_sessionE_def, hcount, hfuel, hev]
  rw [createSeqE_succ, hfull]
  simp only [hcreate]

/-- Whenever `create_session` against the JSON backend returns
normally with a quota of at least 1 (unique stored keys, fresh new
id), the principal's active count afterwards is at most the quota: at
or over the quota with two or more active sessions the call raises
instead of returning, and otherwise at most one eviction suffices. -/
theorem create_sessionE_count_le (M : Nat) (u : String) (e now : Nat)
    (hM : 1 ≤ M) (st : List SessionRec) (sc : Option String) (sid : String)
    (v : SessionView) (st' : List SessionRec)
    (hnd : (st.map SessionRec.session_id).Nodup)
    (hfresh : ∀ r ∈ st, r.session_id ≠ sid)
    (hok : create_sessionE M st u sc sid now e = .ok (v, st')) :
    JSONStorage.count_active_sessions st' u e now ≤ M := by
  have hanyf : st.any (fun x => pyEq x.session_id sid) = false := by
    apply List.any_eq_false.mpr
    intro x hx
    simp [pyEq_eq_false (hfresh x hx)]
  by_cases hlt : JSONStorage.count_active_sessions st u e now < M
  · have hfuel : ((JSONStorage.count_active_sessions st u e now : Int)
        - (M : Int) + 1).toNat = 0 := by omega
    simp only [create_sessionE_def, hfuel, evictLoopE_zero,
      Except.ok.injEq, Prod.mk.injEq] at hok
    obtain ⟨-, hst'⟩ := hok
    rw [← hst']
    have hins : JSONStorage.create_session st
        { session_id := sid, username := u, created_at := now,
          last_activity := now, scopes := sc }
          = st ++ [{ session_id := sid, username := u, created_at := now,
                     last_activity := now, scopes := sc }] := by
      simp [JSONStorage.create_session, hanyf]
    rw [hins, count_append_new u e now st _ (activePred_new u e now sid sc)]
    omega
  · have hcM : M ≤ JSONStorage.count_active_sessions st u e now := by omega
    by_cases h2 : 2 ≤ JSONStorage.count_active_sessions st u e now
    · have herr := get_oldest_session_error_of_two u e now st h2
      obtain ⟨k, hk⟩ : ∃ k, ((JSONStorage.count_active_sessions st u e now : Int)
          - (M : Int) + 1).toNat = k + 1 :=
        ⟨JSONStorage.count_active_sessions st u e now - M, by omega⟩
      have hev : evictLoopE u e now (M : Int) (k + 1)
          ((JSONStorage.count_active_sessions st u e now : Nat) : Int) st
            = .error PyError.typeError := by
        rw [evictLoopE_succ, if_pos (by exact_mod_cast hcM), herr]
      simp only [create_sessionE_def, hk, hev] at hok
      cases hok
    · have hc1 : JSONStorage.count_active_sessions st u e now = 1 := by omega
      have hM1 : M = 1 := by omega
      obtain ⟨o, hoeq, hft⟩ := get_oldest_session_of_count_one u e now st hc1
      have homem : o ∈ st := by
        have : o ∈ st.filter (JSONStorage.activePred u e now) := by
          rw [hft]
          exact List.mem_cons_self o []
        exact (List.mem_filter.mp this).1
      have hop : JSONStorage.activePred u e now o = true := by
        have : o ∈ st.filter (JSONStorage.activePred u e now) := by
          rw [hft]
          exact List.mem_cons_self o []
        exact (List.mem_filter.mp this).2
      have hanyo : st.any (fun x => pyEq x.session_id o.session_id) = true :=
        List.any_eq_true.mpr ⟨o, homem, pyEq_refl _⟩
      have hdel : (JSONStorage.delete_session st o.session_id).2
          = st.filter (fun x => !(pyEq x.session_id o.session_id)) := by
        simp [JSONStorage.delete_session, hanyo]
      have hcount0 : JSONStorage.count_active_sessions
          (st.filter (fun x => !(pyEq x.session_id o.session_id))) u e now = 0 := by
        have := JSONStorage.count_delete u e now st o hnd homem hop
        omega
      have hfuel : ((JSONStorage.count_active_sessions st u e now : Int)
          - (M : Int) + 1).toNat = 1 := by omega
      have hev : evictLoopE u e now (M : Int) 1
          ((JSONStorage.count_active_sessions st u e now : Nat) : Int) st
            = .ok (st.filter (fun x => !(pyEq x.session_id o.session_id))) := by
        have hstep : evictLoopE u e now (M : Int) 1
            ((JSONStorage.count_active_sessions st u e now : Nat) : Int) st
              = if (M : Int) ≤ ((JSONStorage.count_active_sessions st u e now : Nat) : Int)
                then
                  match JSONStorage.get_oldest_session st u e now with
                  | .error err => .error err
                  | .ok (some oldest) =>
                    evictLoopE u e now (M : Int) 0
                      (((JSONStorage.count_active_sessions st u e now : Nat) : Int) - 1)
                      (JSONStorage.delete_session st oldest.session_id).2
                  | .ok none => .ok st
                else .ok st :=
          evictLoopE_succ u e now (M : Int) 0 _ st
        rw [hstep, if_pos (by exact_mod_cast hcM), hoeq]
        simp only [hdel, evictLoopE_zero]
      simp only [create_sessionE_def, hfuel, hev,
        Except.ok.injEq, Prod.mk.injEq] at hok
      obtain ⟨-, hst'⟩ := hok
      rw [← hst']
      have hfreshf : (st.filter
          (fun x => !(pyEq x.session_id o.session_id))).any
            (fun x => pyEq x.session_id sid) = false := by
        apply List.any_eq_false.mpr
        intro x hx
        exact (by simp [pyEq_eq_false (hfresh x (List.mem_filter.mp hx).1)])
      have hins : JSONStorage.create_session
          (st.filter (fun x => !(pyEq x.session_id o.session_id)))
          { session_id := sid, username := u, created_at := now,
            last_activity := now, scopes := sc }
            = st.filter (fun x => !(pyEq x.session_id o.session_id))
                ++ [{ session_id := sid, username := u, created_at := now,
                      last_activity := now, scopes := sc }] := by
        simp [JSONStorage.create_session, hfreshf]
      rw [hins, count_append_new u e now _ _ (activePred_new u e now sid sc),
        hcount0]
      omega

/-!
### Lemmas about the bare-token branch of the scope authorizer (C2) and
about renewal (C10)
-/

/-- Membership of a colon-free token is unaffected by discarding the
tokens that do contain a colon. -/
theorem pyMem_filter_colon_free (required : String)
    (h : pyContains required ':' = false) :
    ∀ (l : List String),
      pyMem required l
        = pyMem required (l.filter (fun g => !(pyContains g ':'))) := by
  intro l
  induction l with
  | nil => rfl
  | cons g t ih =>
    simp only [pyMem] at ih ⊢
    by_cases hg : pyEq g required = true
    · have hgr : g = required := pyEq_iff.mp hg
      have hkeep : (!(pyContains g ':')) = true := by
        rw [hgr, h]
        rfl
      rw [List.filter_cons, if_pos hkeep]
      simp [hg]
    · have hgf : pyEq g required = false := by
        cases hval : pyEq g required with
        | false => rfl
        | true => exact absurd hval hg
      rw [List.filter_cons]
      by_cases hcol : (!(pyContains g ':')) = true
      · rw [if_pos hcol]
        simp only [List.any_cons, hgf, Bool.false_or]
        exact ih
      · rw [if_neg (by simpa using hcol)]
        simp only [List.any_cons, hgf, Bool.false_or]
        exact ih

/-- Touching a stored session updates exactly its `last_activity`. -/
theorem get_session_update (sid : String) (now : Nat) :
    ∀ (st : List SessionRec) (r : SessionRec),
      JSONStorage.get_session st sid = some r →
      JSONStorage.get_session (JSONStorage.update_last_activity st sid now).2 sid
        = some { r with last_activity := now } := by
  intro st
  induction st with
  | nil => intro r hr; simp [JSONStorage.get_session] at hr
  | cons h t ih =>
    intro r hr
    by_cases hh : pyEq h.session_id sid = true
    · have hhr : h = r := by
        simpa [JSONStorage.get_session, List.find?_cons, hh] using hr
      subst hhr
      have hupd : (JSONStorage.update_last_activity (h :: t) sid now).2
          = { h with last_activity := now }
              :: t.map (fun x =>
                  if pyEq x.session_id sid then { x with last_activity := now } else x) := by
        simp [JSONStorage.update_last_activity, List.any_cons, hh]
      rw [hupd]
      simp [JSONStorage.get_session, List.find?_cons, hh]
    · have hhf : pyEq h.session_id sid = false := by
        cases hval : pyEq h.session_id sid with
        | false => rfl
        | true => exact absurd hval hh
      have hrt : JSONStorage.get_session t sid = some r := by
        simpa [JSONStorage.get_session, List.find?_cons, hhf] using hr
      have htany : t.any (fun x => pyEq x.session_id sid) = true := by
        have hrt' : t.find? (fun x => pyEq x.session_id sid) = some r := hrt
        have hmem : r ∈ t := List.mem_of_find?_eq_some hrt'
        have hp := List.find?_some hrt'
        exact List.any_eq_true.mpr ⟨r, hmem, hp⟩
      have hupd : (JSONStorage.update_last_activity (h :: t) sid now).2
          = h :: (JSONStorage.update_last_activity t sid now).2 := by
        simp [JSONStorage.update_last_activity, List.any_cons, hhf, htany]
      rw [hupd]
      have := ih r hrt
      simpa [JSONStorage.get_session, List.find?_cons, hhf] using this

/-!
## The claims
-/

/-- Claim C1, counterexample: the required string "billing:read,write"
against granted "billing:admin" is NOT authorized by the code — the
required string is split on commas before any `subsystem:perms`
parsing, so it denotes the two tokens "billing:read" and "write", and
the bare token "write" is not granted verbatim.  The claim asserts
`true` here. -/
theorem c1_admin_override_counterexample :
    requireAuthCheckScopes "billing:read,write" (some "billing:admin") = false := by
  decide

/-- Claim C1 (amended): the whole-string check yields not-authorized
for "billing:read,write" against both "billing:admin" and
"billing:read" (the outer comma split turns "write" into a bare
required token).  The admin-implies-all-permissions override does hold
at the level of a single required token: the token
"billing:read,write" matches granted "billing:admin" and does not
match granted "billing:read".  Both code copies agree. -/
theorem c1_admin_override_amended :
    requireAuthCheckScopes "billing:read,write" (some "billing:admin") = false ∧
    requireAuthCheckScopes "billing:read,write" (some "billing:read") = false ∧
    requireAuthTokenMatched "billing:read,write" ["billing:admin"] = true ∧
    requireAuthTokenMatched "billing:read,write" ["billing:read"] = false ∧
    sessionDependencyCheckScopes "billing:read,write" (some "billing:admin") = false ∧
    sessionDependencyCheckScopes "billing:read,write" (some "billing:read") = false := by
  decide

/-- Claim C2: a required token with no colon is satisfied exactly when
it occurs verbatim among the granted tokens that themselves have no
colon — granted `subsystem:permission-list` tokens can never satisfy
it, since string equality against a colon-free token always fails. -/
theorem c2_bare_token_verbatim (required : String) (userScopes : List String)
    (h : pyContains required ':' = false) :
    requireAuthTokenMatched required userScopes
      = pyMem required (userScopes.filter (fun g => !(pyContains g ':'))) := by
  unfold requireAuthTokenMatched
  rw [if_neg (by simp [h])]
  exact pyMem_filter_colon_free required h userScopes

/-- Witness for C2 at a concrete token and grant list. -/
theorem c2_bare_token_verbatim_witness :
    pyContains "write" ':' = false ∧
    requireAuthTokenMatched "write" ["billing:write", "read", "write"]
      = pyMem "write" (["billing:write", "read", "write"].filter
          (fun g => !(pyContains g ':'))) :=
  ⟨by decide,
   c2_bare_token_verbatim "write" ["billing:write", "read", "write"] (by decide)⟩

/-- Claim C6: the wildcard subsystem glob — "orders-*:read" authorizes
a session granted "orders-eu:read" (the `*` becomes `.*`, the pattern
is anchored and matched against the granted subsystem name) and does
not authorize one granted only "invoices:read". -/
theorem c6_wildcard_subsystem :
    requireAuthCheckScopes "orders-*:read" (some "orders-eu:read") = true ∧
    requireAuthCheckScopes "orders-*:read" (some "invoices:read") = false := by
  decide

/-- Claim C7: the scope-checking logic of the `require_auth` decorator
and of `SessionDependency.__call__` compute the same authorization
decision on every pair of required and granted scope strings — at the
level of the whole guard, of the non-empty-scopes check, and of a
single required token. -/
theorem c7_decorator_dependency_equivalent :
    (∀ (scopes sessionScopes : Option String),
       requireAuthAuthorized scopes sessionScopes
         = sessionDependencyAuthorized scopes sessionScopes) ∧
    (∀ (s : String) (sessionScopes : Option String),
       requireAuthCheckScopes s sessionScopes
         = sessionDependencyCheckScopes s sessionScopes) ∧
    (∀ (required : String) (userScopes : List String),
       requireAuthTokenMatched required userScopes
         = sessionDependencyTokenMatched required userScopes) :=
  ⟨fun _ _ => rfl, fun _ _ => rfl, fun _ _ => rfl⟩

/-- Claim C3, counterexample: with a backend in which the record
vanishes between the lookup and the touch (`update_last_activity`
returns `False`), a `renew=True` validation of a found, unexpired
session still returns a session view — not the not-found `None` the
claim requires. -/
theorem c3_update_result_ignored_counterexample :
    (validate_session (raceStorage ⟨"s1", "alice", 0, 0, none⟩) ()
        "s1" 5 30 true).1 ≠ none := by
  decide

/-- Claim C3 (amended): `validate_session` discards the boolean
returned by `storage.update_last_activity`; whenever the session is
found and unexpired at read time and `renew=True`, the call returns
the session view with `last_activity = now`, for every backend —
including one whose update reports that the record no longer exists. -/
theorem c3_renew_ignores_update_result {σ : Type} (S : SessionStorage σ)
    (st : σ) (session_id : String) (now e : Nat) (r : SessionRec)
    (hget : S.get_session st session_id = some r)
    (hunexpired : now ≤ r.last_activity + e) :
    (validate_session S st session_id now e true).1
      = some (validateView r now e) := by
  simp only [validate_session, hget]
  rw [if_neg (by omega : ¬ now > r.last_activity + e)]
  simp

/-- Witness for C3 at the racing backend: the update reports `False`,
yet the view is returned. -/
theorem c3_renew_ignores_update_result_witness :
    (raceStorage ⟨"s1", "alice", 0, 0, none⟩).get_session () "s1"
        = some ⟨"s1", "alice", 0, 0, none⟩ ∧
    (5 : Nat) ≤ 0 + 30 ∧
    (raceStorage ⟨"s1", "alice", 0, 0, none⟩).update_last_activity () "s1" 5
        = (false, ()) ∧
    (validate_session (raceStorage ⟨"s1", "alice", 0, 0, none⟩) ()
        "s1" 5 30 true).1
      = some (validateView ⟨"s1", "alice", 0, 0, none⟩ 5 30) :=
  ⟨rfl, by decide, rfl,
   c3_renew_ignores_update_result (raceStorage ⟨"s1", "alice", 0, 0, none⟩)
     () "s1" 5 30 ⟨"s1", "alice", 0, 0, none⟩ rfl (by decide)⟩

/-- Claim C5: `validate_session(session_id, renew=False)` is a pure
read — the storage state is returned unchanged, an immediate repeat
returns the same answer, and any returned view carries the stored
(pre-renewal) `last_activity` and the `expires_at` computed from it. -/
theorem c5_validate_no_renew_pure {σ : Type} (S : SessionStorage σ)
    (st : σ) (session_id : String) (now e : Nat) :
    (validate_session S st session_id now e false).2 = st ∧
    validate_session S ((validate_session S st session_id now e false).2)
        session_id now e false
      = validate_session S st session_id now e false ∧
    (∀ v, (validate_session S st session_id now e false).1 = some v →
       ∃ r, S.get_session st session_id = some r ∧
         v = validateView r r.last_activity e) := by
  have h2 : (validate_session S st session_id now e false).2 = st := by
    cases hget : S.get_session st session_id with
    | none => simp [validate_session, hget]
    | some r =>
      by_cases hexp : now > r.last_activity + e
      · simp [validate_session, hget, hexp]
      · simp [validate_session, hget, hexp]
  refine ⟨h2, by rw [h2], ?_⟩
  intro v hv
  cases hget : S.get_session st session_id with
  | none => simp [validate_session, hget] at hv
  | some r =>
    by_cases hexp : now > r.last_activity + e
    · simp [validate_session, hget, hexp] at hv
    · simp [validate_session, hget, hexp] at hv
      exact ⟨r, rfl, hv.symm⟩

/-- Witness for C5 on the JSON reference store with one session. -/
theorem c5_validate_no_renew_pure_witness :
    (validate_session jsonStorage [⟨"s1", "alice", 0, 0, none⟩]
        "s1" 5 30 false).2 = [⟨"s1", "alice", 0, 0, none⟩] ∧
    validate_session jsonStorage
        ((validate_session jsonStorage [⟨"s1", "alice", 0, 0, none⟩]
            "s1" 5 30 false).2) "s1" 5 30 false
      = validate_session jsonStorage [⟨"s1", "alice", 0, 0, none⟩]
          "s1" 5 30 false ∧
    (∀ v, (validate_session jsonStorage [⟨"s1", "alice", 0, 0, none⟩]
          "s1" 5 30 false).1 = some v →
       ∃ r, jsonStorage.get_session [⟨"s1", "alice", 0, 0, none⟩] "s1"
           = some r ∧ v = validateView r r.last_activity 30) :=
  c5_validate_no_renew_pure jsonStorage [⟨"s1", "alice", 0, 0, none⟩] "s1" 5 30

/-- Claim C9: an expired session and an absent `session_id` produce the
identical not-found result `(none, st)` from `validate_session`, so a
caller cannot distinguish the two cases. -/
theorem c9_expired_indistinguishable {σ : Type} (S : SessionStorage σ)
    (st : σ) (session_id : String) (now e : Nat) (renew : Bool) :
    (S.get_session st session_id = none →
       validate_session S st session_id now e renew = (none, st)) ∧
    (∀ r, S.get_session st session_id = some r →
       now > r.last_activity + e →
       validate_session S st session_id now e renew = (none, st)) := by
  constructor
  · intro h
    simp [validate_session, h]
  · intro r h hexp
    simp only [validate_session, h]
    rw [if_pos hexp]

/-- Witness for C9: a store holding one expired session answers exactly
as it does for an unknown id. -/
theorem c9_expired_indistinguishable_witness :
    jsonStorage.get_session [⟨"s1", "alice", 0, 0, none⟩] "zz" = none ∧
    validate_session jsonStorage [⟨"s1", "alice", 0, 0, none⟩] "zz" 31 30 true
      = (none, [⟨"s1", "alice", 0, 0, none⟩]) ∧
    validate_session jsonStorage [⟨"s1", "alice", 0, 0, none⟩] "s1" 31 30 true
      = (none, [⟨"s1", "alice", 0, 0, none⟩]) :=
  ⟨by decide,
   (c9_expired_indistinguishable jsonStorage [⟨"s1", "alice", 0, 0, none⟩]
       "zz" 31 30 true).1 (by decide),
   (c9_expired_indistinguishable jsonStorage [⟨"s1", "alice", 0, 0, none⟩]
       "s1" 31 30 true).2 ⟨"s1", "alice", 0, 0, none⟩ (by decide) (by decide)⟩

/-- Claim C4, counterexample: with a configured maximum of `0`
sessions, creating `maxSessions + 1 = 1` session from an empty store
completes normally and leaves one active session — the eviction loop
finds nothing to delete, breaks, and the new session is admitted
anyway — so the active count exceeds the configured maximum and the
claim fails as stated. -/
theorem c4_quota_counterexample :
    create_sessionE 0 [] "alice" none "s0" 0 30
      = .ok (createView "s0" "alice" 0 30 none,
             [{ session_id := "s0", username := "alice", created_at := 0,
                last_activity := 0, scopes := none }]) ∧
    ¬ (JSONStorage.count_active_sessions
        [{ session_id := "s0", username := "alice", created_at := 0,
           last_activity := 0, scopes := none }] "alice" 30 0 ≤ 0) := by
  decide

/-- Claim C4 (amended): at the shipped configuration `maxSessions = 1`
(the JSON backend's hardcoded quota), creating `maxSessions + 1 = 2`
sessions in strict sequence leaves exactly one active session — the
second create evicts the first-created session, the one with the
smallest `last_activity`.  At any configured quota of 2 or more, the
`(maxSessions + 1)`-th create instead raises `TypeError`:
`storage_json.py` line 253 re-parses the already-parsed `datetime` in
`oldest['last_activity']` with `datetime.fromisoformat`, which raises
as soon as a second active session of the principal is scanned.  When
`get_oldest_session` does answer `some`, its answer is an active
session of the principal with minimal `last_activity` (it is in fact
the only one).  And whenever a create returns normally at a quota of at
least 1, the principal's active count never exceeds the quota. -/
theorem c4_quota_eviction_amended (M e : Nat) (u : String)
    (sc : Option String) (hM : 1 ≤ M) (he : M ≤ e) :
    (createSeqE 1 u sc e 2 = .ok [seqRec u sc 1] ∧
     JSONStorage.count_active_sessions [seqRec u sc 1] u e 1 = 1) ∧
    (2 ≤ M → createSeqE M u sc e (M + 1) = .error PyError.typeError) ∧
    (∀ (st : List SessionRec) (now : Nat) (o : SessionRec),
       JSONStorage.get_oldest_session st u e now = .ok (some o) →
       o ∈ st ∧ JSONStorage.activePred u e now o = true ∧
         ∀ r ∈ st, JSONStorage.activePred u e now r = true →
           o.last_activity ≤ r.last_activity) ∧
    (∀ (st : List SessionRec) (now : Nat) (sid : String) (sc' : Option String)
        (v : SessionView) (st' : List SessionRec),
       (st.map SessionRec.session_id).Nodup →
       (∀ r ∈ st, r.session_id ≠ sid) →
       create_sessionE M st u sc' sid now e = .ok (v, st') →
       JSONStorage.count_active_sessions st' u e now ≤ M) := by
  have hcount1 : JSONStorage.count_active_sessions [seqRec u sc 1] u e 1 = 1 := by
    have := count_map_range' u sc e 1 1 1 (fun i h1 h2 => by omega)
    simpa using this
  exact ⟨⟨createSeqE_two u sc e (Nat.le_trans hM he), hcount1⟩,
    fun h2 => createSeqE_crash M u sc e h2 he,
    fun st now o h => get_oldest_session_ok_some_spec u e now st o h,
    fun st now sid sc' v st' hnd hfresh hok =>
      create_sessionE_count_le M u e now hM st sc' sid v st' hnd hfresh hok⟩

/-- Witness for C4 at quota 2: the quota-1 sequence leaves exactly the
second session; the three-creates-at-quota-2 sequence raises
`TypeError`; the oldest-session query on a singleton store answers it;
a create over the empty store returns normally within the quota. -/
theorem c4_quota_eviction_amended_witness :
    (createSeqE 1 "bob" none 2 2 = .ok [seqRec "bob" none 1] ∧
     JSONStorage.count_active_sessions [seqRec "bob" none 1] "bob" 2 1 = 1) ∧
    createSeqE 2 "bob" none 2 3 = .error PyError.typeError ∧
    (seqRec "bob" none 0 ∈ [seqRec "bob" none 0] ∧
     JSONStorage.activePred "bob" 2 0 (seqRec "bob" none 0) = true ∧
     ∀ r ∈ [seqRec "bob" none 0],
       JSONStorage.activePred "bob" 2 0 r = true →
       (seqRec "bob" none 0).last_activity ≤ r.last_activity) ∧
    JSONStorage.count_active_sessions
        [{ session_id := "x", username := "bob", created_at := 0,
           last_activity := 0, scopes := none }] "bob" 2 0 ≤ 2 :=
  ⟨(c4_quota_eviction_amended 2 2 "bob" none (by decide) (by decide)).1,
   (c4_quota_eviction_amended 2 2 "bob" none (by decide) (by decide)).2.1
     (by decide),
   (c4_quota_eviction_amended 2 2 "bob" none (by decide) (by decide)).2.2.1
     [seqRec "bob" none 0] 0 (seqRec "bob" none 0) (by decide),
   (c4_quota_eviction_amended 2 2 "bob" none (by decide) (by decide)).2.2.2
     [] 0 "x" none (createView "x" "bob" 0 2 none)
     [{ session_id := "x", username := "bob", created_at := 0,
        last_activity := 0, scopes := none }]
     (by decide) (by decide) (by decide)⟩

/-- Claim C8, counterexample: the view returned by `create_session`
does not carry the six-field shape — it has no `last_activity` key. -/
theorem c8_create_view_counterexample :
    (create_session jsonStorage [] "alice" none "s1" 0 30).1.map Prod.fst
      ≠ ["session_id", "username", "created_at", "last_activity",
         "expires_at", "scopes"] := by
  decide

/-- Claim C8 (amended): the views returned by `validate_session` and by
`get_active_sessions` consist of exactly the six fields `session_id`,
`username`, `created_at`, `last_activity`, `expires_at`, `scopes`, with
the timestamps ISO-rendered and `scopes` a string or null; the view
returned by `create_session` consists of exactly the five fields
`session_id`, `username`, `created_at`, `expires_at`, `scopes` — it
omits `last_activity`, as its own docstring records. -/
theorem c8_view_fields_amended :
    (∀ (σ : Type) (S : SessionStorage σ) (st : σ) (u : String)
        (sc : Option String) (sid : String) (now e : Nat),
       (create_session S st u sc sid now e).1.map Prod.fst
         = ["session_id", "username", "created_at", "expires_at", "scopes"]) ∧
    (∀ (σ : Type) (S : SessionStorage σ) (st : σ) (sid : String)
        (now e : Nat) (renew : Bool) (v : SessionView),
       (validate_session S st sid now e renew).1 = some v →
       (∃ r la, S.get_session st sid = some r ∧ v = validateView r la e) ∧
       v.map Prod.fst = ["session_id", "username", "created_at",
         "last_activity", "expires_at", "scopes"]) ∧
    (∀ (σ : Type) (S : SessionStorage σ) (st : σ) (u : Option String)
        (now e : Nat) (v : SessionView),
       v ∈ get_active_sessions S st u now e →
       (∃ r, r ∈ S.get_all_sessions st u ∧ now ≤ r.last_activity + e ∧
          v = activeView r e) ∧
       v.map Prod.fst = ["session_id", "username", "created_at",
         "last_activity", "expires_at", "scopes"]) := by
  refine ⟨fun σ S st u sc sid now e => rfl, ?_, ?_⟩
  · intro σ S st sid now e renew v hv
    cases hget : S.get_session st sid with
    | none => simp [validate_session, hget] at hv
    | some r =>
      by_cases hexp : now > r.last_activity + e
      · simp [validate_session, hget, hexp] at hv
      · simp [validate_session, hget, hexp] at hv
        refine ⟨⟨r, if renew then now else r.last_activity, rfl, hv.symm⟩, ?_⟩
        rw [← hv]
        rfl
  · intro σ S st u now e v hv
    obtain ⟨r, hr, hkeep⟩ := List.mem_filterMap.mp hv
    by_cases hact : now ≤ r.last_activity + e
    · rw [if_pos hact] at hkeep
      refine ⟨⟨r, hr, hact, (Option.some_inj.mp hkeep).symm⟩, ?_⟩
      rw [← Option.some_inj.mp hkeep]
      rfl
    · rw [if_neg hact] at hkeep
      cases hkeep

/-- Witness for C8: a validate view and an active-sessions view from a
one-session JSON store both carry exactly the six fields. -/
theorem c8_view_fields_amended_witness :
    ((∃ r la, jsonStorage.get_session [⟨"s1", "alice", 0, 0, none⟩] "s1"
          = some r ∧
        validateView ⟨"s1", "alice", 0, 0, none⟩ 0 30 = validateView r la 30) ∧
     (validateView ⟨"s1", "alice", 0, 0, none⟩ 0 30).map Prod.fst
        = ["session_id", "username", "created_at", "last_activity",
           "expires_at", "scopes"]) ∧
    ((∃ r, r ∈ jsonStorage.get_all_sessions [⟨"s1", "alice", 0, 0, none⟩] none ∧
        (5 : Nat) ≤ r.last_activity + 30 ∧
        activeView ⟨"s1", "alice", 0, 0, none⟩ 30 = activeView r 30) ∧
     (activeView ⟨"s1", "alice", 0, 0, none⟩ 30).map Prod.fst
        = ["session_id", "username", "created_at", "last_activity",
           "expires_at", "scopes"]) :=
  ⟨(c8_view_fields_amended.2.1 (List SessionRec) jsonStorage
      [⟨"s1", "alice", 0, 0, none⟩] "s1" 0 30 false
      (validateView ⟨"s1", "alice", 0, 0, none⟩ 0 30) (by decide)),
   (c8_view_fields_amended.2.2 (List SessionRec) jsonStorage
      [⟨"s1", "alice", 0, 0, none⟩] none 5 30
      (activeView ⟨"s1", "alice", 0, 0, none⟩ 30) (by decide))⟩

/-- Claim C10: the `renew` parameter of `validate_session` defaults to
`True`; each of the three request-guard call sites passes
`renew=True` explicitly; and a `renew=True` validation of a found,
unexpired session stores `last_activity = now` for that session. -/
theorem c10_renew_default_true :
    (∀ (σ : Type) (S : SessionStorage σ) (st : σ) (sid : String) (now e : Nat),
       validate_session S st sid now e = validate_session S st sid now e true) ∧
    (∀ (σ : Type) (S : SessionStorage σ) (st : σ) (sid : String) (now e : Nat),
       requireAuthValidate S st sid now e = validate_session S st sid now e true ∧
       getSessionFromRequestValidate S st sid now e
         = validate_session S st sid now e true ∧
       sessionDependencyValidate S st sid now e
         = validate_session S st sid now e true) ∧
    (∀ (st : List SessionRec) (sid : String) (now e : Nat) (r : SessionRec),
       JSONStorage.get_session st sid = some r →
       now ≤ r.last_activity + e →
       JSONStorage.get_session
           ((validate_session jsonStorage st sid now e true).2) sid
         = some { r with last_activity := now }) := by
  refine ⟨fun σ S st sid now e => rfl,
    fun σ S st sid now e => ⟨rfl, rfl, rfl⟩, ?_⟩
  intro st sid now e r hget hunexpired
  have hget' : jsonStorage.get_session st sid = some r := hget
  have hst : (validate_session jsonStorage st sid now e true).2
      = (JSONStorage.update_last_activity st sid now).2 := by
    simp only [validate_session, hget']
    rw [if_neg (by omega : ¬ now > r.last_activity + e)]
    rfl
  rw [hst]
  exact get_session_update sid now st r hget

/-- Witness for C10: validating a live session with the defaulted
`renew` bumps its stored `last_activity` to the call time. -/
theorem c10_renew_default_true_witness :
    JSONStorage.get_session [⟨"s1", "alice", 0, 0, none⟩] "s1"
        = some ⟨"s1", "alice", 0, 0, none⟩ ∧
    (5 : Nat) ≤ 0 + 30 ∧
    JSONStorage.get_session
        ((validate_session jsonStorage [⟨"s1", "alice", 0, 0, none⟩]
            "s1" 5 30 true).2) "s1"
      = some ⟨"s1", "alice", 0, 5, none⟩ :=
  ⟨by decide, by decide,
   c10_renew_default_true.2.2 [⟨"s1", "alice", 0, 0, none⟩] "s1" 5 30
     ⟨"s1", "alice", 0, 0, none⟩ (by decide) (by decide)⟩
